import Mathlib

/-!
Verification of the LegalBeacon case-management application.

The definitions below are a shallow embedding of the data model and of the
query / mutation logic found in the sources: the relational schema
(schema.sql), the dashboard page, the cases list page, the documents list
page, the new-case form, the case-detail page and the scripted assistant.
Timestamps are modelled as natural numbers (milliseconds), identifiers as
natural numbers, nullable columns as `Option`, and the JavaScript string
operations used by the pages (`toLowerCase`, `includes`, `trim`, template
interpolation of `null`) as explicit functions on `List Char`.
-/

namespace LegalBeacon

/-! ### JavaScript string primitives used by the pages -/

/-- Model of `String.prototype.toLowerCase` (ASCII, as used on the keyword
and search strings in the sources). -/
def jsToLower (s : String) : String := String.mk (s.data.map Char.toLower)

/-- Does `needle` occur as a prefix-at-some-position of `hay`?  Model of
`String.prototype.includes` on the character list. -/
def charsContain (hay needle : List Char) : Bool :=
  match hay with
  | [] => needle.isEmpty
  | _ :: t => needle.isPrefixOf hay || charsContain t needle

/-- Model of `hay.includes(needle)` on JavaScript strings. -/
def jsIncludes (hay needle : String) : Bool := charsContain hay.data needle.data

/-- Model of `String.prototype.trim`: strip leading and trailing whitespace. -/
def jsTrim (s : String) : String :=
  String.mk (((s.data.dropWhile Char.isWhitespace).reverse.dropWhile
    Char.isWhitespace).reverse)

/-- JavaScript truthiness of a nullable string column: `null`, `undefined`
and the empty string are falsy. -/
def jsTruthy (o : Option String) : Bool :=
  match o with
  | none => false
  | some s => !(s == "")

/-- JavaScript template-literal interpolation of a nullable string: `null`
prints as the four characters `null`. -/
def jsInterp (o : Option String) : String := o.getD "null"

/-- JavaScript `a || b` on a nullable identifier (the new-case form passes
the empty select value as absence, which is falsy). -/
def jsOrId (o : Option Nat) (d : Nat) : Nat := o.getD d

/-! ### Data model (schema.sql) -/

/-- A row of the `users` table. -/
structure UserRow where
  id : Nat
  firm_id : Nat
  email : String
  first_name : String
  last_name : String
  role : String
deriving DecidableEq, Repr

/-- The three name columns of a `parties` row that display-name resolution
reads. -/
structure PartyName where
  first_name : Option String
  last_name : Option String
  organization_name : Option String
deriving DecidableEq, Repr

/-- A row of the `parties` table. -/
structure PartyRow where
  id : Nat
  firm_id : Nat
  first_name : Option String
  last_name : Option String
  organization_name : Option String
  is_client : Bool
deriving DecidableEq, Repr

/-- A row of the `cases` table. -/
structure CaseRow where
  id : Nat
  firm_id : Nat
  case_number : String
  title : String
  case_type : String
  status : String
  client_id : Nat
  opposing_party_id : Option Nat
  assigned_to : Option Nat
  filing_date : Option Nat
  created_at : Nat
deriving DecidableEq, Repr

/-- A row of the `security_interests` table. -/
structure SecurityInterestRow where
  id : Nat
  firm_id : Nat
  case_id : Nat
  type : String
  description : String
  amount : Int
  lender_id : Nat
  borrower_id : Nat
  lien_position : Option Nat
deriving DecidableEq, Repr

/-- A row of the `documents` table. -/
structure DocumentRow where
  id : Nat
  firm_id : Nat
  case_id : Nat
  name : String
  document_type : String
  file_path : String
  file_size : Nat
  uploaded_by : Nat
  version : Nat
  is_template : Bool
  related_party_id : Option Nat
  created_at : Nat
deriving DecidableEq, Repr

/-- A row of the `deadlines` table. -/
structure DeadlineRow where
  id : Nat
  firm_id : Nat
  case_id : Nat
  title : String
  due_date : Nat
  priority : String
  status : String
  assigned_to : Option Nat
deriving DecidableEq, Repr

/-- A row of the `financials` table. -/
structure FinancialRow where
  id : Nat
  firm_id : Nat
  case_id : Nat
  transaction_type : String
  amount : Int
  transaction_date : Nat
  recorded_by : Nat
  party_id : Option Nat
deriving DecidableEq, Repr

/-- The backing store: one list per table of the schema. -/
structure DB where
  users : List UserRow
  parties : List PartyRow
  cases : List CaseRow
  security_interests : List SecurityInterestRow
  documents : List DocumentRow
  deadlines : List DeadlineRow
  financials : List FinancialRow
deriving DecidableEq, Repr

/-- The `valid_name` check constraint of the `parties` table:
either both personal names or the organization name must be non-null. -/
def validName (p : PartyName) : Prop :=
  (p.first_name ≠ none ∧ p.last_name ≠ none) ∨ p.organization_name ≠ none

instance (p : PartyName) : Decidable (validName p) := by
  unfold validName; infer_instance

/-! ### Display-name resolution (C3) -/

/-- `getPartyDisplayName` of the case-detail page: `Unknown` for a missing
record, the organization name when truthy, otherwise the trimmed
concatenation of the personal names with null parts defaulted to the empty
string. -/
def getPartyDisplayName (party : Option PartyName) : String :=
  match party with
  | none => "Unknown"
  | some p =>
    if jsTruthy p.organization_name then
      p.organization_name.getD ""
    else
      jsTrim ((p.first_name.getD "") ++ " " ++ (p.last_name.getD ""))

/-- The inline client-name resolution of the dashboard and cases-list pages:
`clientData.organization_name || template` where the template interpolates
the raw nullable columns, so a null name prints as the string `null`. -/
def dashboardClientName (clientData : Option PartyName) : String :=
  match clientData with
  | none => "Unknown Client"
  | some p =>
    if jsTruthy p.organization_name then
      p.organization_name.getD ""
    else
      jsInterp p.first_name ++ " " ++ jsInterp p.last_name

/-! ### Principal resolution and the tenant authorization gate -/

/-- Resolution of the caller firm: every page first selects `firm_id` from
`users` keyed by the authenticated principal id. -/
def resolveFirmId (db : DB) (uid : Nat) : Option Nat :=
  (db.users.find? (fun u => u.id == uid)).map (fun u => u.firm_id)

/-- Modelled from the spec: the schema enables row-level security on every
firm-scoped table, but the per-table policies themselves are left as a
placeholder comment in schema.sql (only the `firms` policy is written out).
The spec states the policies "restrict all reads/writes to rows whose firm
matches the firm of the currently authenticated User", and that a principal
with no User record gets empty results.  `rlsVisible` is that gate: the
rows of a firm-scoped table visible to a principal. -/
def rlsVisible (db : DB) (uid : Nat) (firmIdOf : α → Nat) (rows : List α) :
    List α :=
  match resolveFirmId db uid with
  | none => []
  | some fid => rows.filter (fun r => firmIdOf r == fid)

/-! ### Firm-scoped queries issued by the pages (C1) -/

/-- Base query of the cases list page: `from(cases).eq(firm_id, firmId)`
issued through the gate. -/
def queryCasesByFirm (db : DB) (uid fid : Nat) : List CaseRow :=
  (rlsVisible db uid CaseRow.firm_id db.cases).filter (fun c => c.firm_id == fid)

/-- `fetchParties` of the new-case form:
`from(parties).eq(firm_id, firmId).eq(is_client, isClient)`. -/
def queryPartiesByFirm (db : DB) (uid fid : Nat) (isClient : Bool) :
    List PartyRow :=
  ((rlsVisible db uid PartyRow.firm_id db.parties).filter
    (fun p => p.firm_id == fid)).filter (fun p => p.is_client == isClient)

/-- Base query of the documents list page:
`from(documents).eq(firm_id, firmId)`. -/
def queryDocumentsByFirm (db : DB) (uid fid : Nat) : List DocumentRow :=
  (rlsVisible db uid DocumentRow.firm_id db.documents).filter
    (fun d => d.firm_id == fid)

/-- The dashboard deadline-count query:
`from(deadlines).eq(firm_id, firmId).gte(due_date, now)
.lte(due_date, now + 7 days)`; the two date bounds are two separate
builder filters. -/
def queryUpcomingDeadlines (db : DB) (uid fid now : Nat) : List DeadlineRow :=
  (((rlsVisible db uid DeadlineRow.firm_id db.deadlines).filter
      (fun d => d.firm_id == fid)).filter
    (fun d => now ≤ d.due_date)).filter
      (fun d => d.due_date ≤ now + 7 * 24 * 60 * 60 * 1000)

/-- `fetchFinancials` of the case-detail page:
`from(financials).eq(case_id, caseId)`; the only firm restriction on
this query is the gate itself. -/
def queryFinancialsByCase (db : DB) (uid cid : Nat) : List FinancialRow :=
  (rlsVisible db uid FinancialRow.firm_id db.financials).filter
    (fun f => f.case_id == cid)

/-- `fetchSecurityInterests` of the case-detail page:
`from(security_interests).eq(case_id, caseId)`. -/
def querySecurityInterestsByCase (db : DB) (uid cid : Nat) :
    List SecurityInterestRow :=
  (rlsVisible db uid SecurityInterestRow.firm_id db.security_interests).filter
    (fun s => s.case_id == cid)

/-- `upcomingDeadlines` statistic of the dashboard: zero when the principal
resolves to no firm, otherwise the exact count of the scoped range query. -/
def upcomingDeadlinesCount (db : DB) (uid now : Nat) : Nat :=
  match resolveFirmId db uid with
  | none => 0
  | some fid => (queryUpcomingDeadlines db uid fid now).length

/-! ### Filtered, paginated list views (C6, C7, C8) -/

/-- Case-insensitive substring filter: model of the `ilike percent-term-percent`
conditions built by the list pages. -/
def ilikeContains (field term : String) : Bool :=
  jsIncludes (jsToLower field) (jsToLower term)

/-- The filter predicate assembled by `fetchCases` of the cases list page:
a truthy search term matches `title` or `case_number` by `ilike`, and the
two categorical filters apply unless set to `all`. -/
def caseMatches (searchTerm statusFilter typeFilter : String) (c : CaseRow) :
    Bool :=
  (searchTerm == "" || (ilikeContains c.title searchTerm ||
      ilikeContains c.case_number searchTerm)) &&
    (statusFilter == "all" || c.status == statusFilter) &&
    (typeFilter == "all" || c.case_type == typeFilter)

/-- The rows matching the current filter of the cases list page, before
ordering and pagination. -/
def fetchCasesMatching (db : DB) (uid fid : Nat)
    (searchTerm statusFilter typeFilter : String) : List CaseRow :=
  (queryCasesByFirm db uid fid).filter (caseMatches searchTerm statusFilter typeFilter)

/-- Model of the order-by on cases: creation time descending. -/
def caseCreatedDesc (a b : CaseRow) : Prop := b.created_at ≤ a.created_at

instance : DecidableRel caseCreatedDesc := fun _ _ => Nat.decLe _ _

instance : IsTotal CaseRow caseCreatedDesc :=
  ⟨fun a b => (Nat.le_total b.created_at a.created_at)⟩

instance : IsTrans CaseRow caseCreatedDesc :=
  ⟨fun _ _ _ hab hbc => Nat.le_trans hbc hab⟩

/-- The ordered result set of `fetchCases`: matching rows by creation time
descending. -/
def fetchCasesSorted (db : DB) (uid fid : Nat)
    (searchTerm statusFilter typeFilter : String) : List CaseRow :=
  List.insertionSort caseCreatedDesc
    (fetchCasesMatching db uid fid searchTerm statusFilter typeFilter)

/-- The exact-count query of `fetchCases`, issued on the
same builder as the page of rows, before `range` is applied. -/
def fetchCasesCount (db : DB) (uid fid : Nat)
    (searchTerm statusFilter typeFilter : String) : Nat :=
  (fetchCasesMatching db uid fid searchTerm statusFilter typeFilter).length

/-- `range(from, to)` of the query builder: the inclusive slice of the
ordered result set. -/
def queryRange (l : List α) (start stop : Nat) : List α :=
  (l.drop start).take (stop + 1 - start)

/-- The page of rows returned by `fetchCases` for a 1-indexed `page`:
`from = (currentPage - 1) * itemsPerPage`, `to = from + itemsPerPage - 1`,
with `itemsPerPage = 10`. -/
def fetchCasesPage (db : DB) (uid fid : Nat)
    (searchTerm statusFilter typeFilter : String) (page : Nat) : List CaseRow :=
  queryRange (fetchCasesSorted db uid fid searchTerm statusFilter typeFilter)
    ((page - 1) * 10) ((page - 1) * 10 + 10 - 1)

/-- The filter predicate assembled by `fetchDocuments` of the documents
list page: `ilike` on `name`, equality on `document_type` and `case_id`
unless set to `all`. -/
def documentMatches (searchTerm typeFilter : String) (caseFilter : Option Nat)
    (d : DocumentRow) : Bool :=
  (searchTerm == "" || ilikeContains d.name searchTerm) &&
    (typeFilter == "all" || d.document_type == typeFilter) &&
    (caseFilter.elim true (fun cid => d.case_id == cid))

/-- The rows matching the current filter of the documents list page. -/
def fetchDocumentsMatching (db : DB) (uid fid : Nat)
    (searchTerm typeFilter : String) (caseFilter : Option Nat) :
    List DocumentRow :=
  (queryDocumentsByFirm db uid fid).filter
    (documentMatches searchTerm typeFilter caseFilter)

/-- Model of the order-by on documents: creation time descending. -/
def documentCreatedDesc (a b : DocumentRow) : Prop := b.created_at ≤ a.created_at

instance : DecidableRel documentCreatedDesc := fun _ _ => Nat.decLe _ _

/-- The ordered result set of `fetchDocuments`. -/
def fetchDocumentsSorted (db : DB) (uid fid : Nat)
    (searchTerm typeFilter : String) (caseFilter : Option Nat) :
    List DocumentRow :=
  List.insertionSort documentCreatedDesc
    (fetchDocumentsMatching db uid fid searchTerm typeFilter caseFilter)

/-- The exact-count query of `fetchDocuments`, issued on the same builder
as the page of rows. -/
def fetchDocumentsCount (db : DB) (uid fid : Nat)
    (searchTerm typeFilter : String) (caseFilter : Option Nat) : Nat :=
  (fetchDocumentsMatching db uid fid searchTerm typeFilter caseFilter).length

/-- The page of rows returned by `fetchDocuments`. -/
def fetchDocumentsPage (db : DB) (uid fid : Nat)
    (searchTerm typeFilter : String) (caseFilter : Option Nat) (page : Nat) :
    List DocumentRow :=
  queryRange (fetchDocumentsSorted db uid fid searchTerm typeFilter caseFilter)
    ((page - 1) * 10) ((page - 1) * 10 + 10 - 1)

/-- `setTotalPages(Math.ceil((count || 0) / itemsPerPage))` with
`itemsPerPage = 10`. -/
def totalPagesOf (count : Nat) : Nat := (count + 9) / 10

/-- The value shown by the pagination footer label
`of {totalPages * itemsPerPage} results`. -/
def displayedTotalResults (count : Nat) : Nat := totalPagesOf count * 10

/-! ### Case creation (C2) -/

/-- The validated values of the new-case form.  The optional references
arrive from empty-valued selects, whose empty string is falsy and is
modelled as `none`. -/
structure NewCaseForm where
  title : String
  case_number : String
  case_type : String
  status : String
  description : Option String
  client_id : Nat
  opposing_party_id : Option Nat
  assigned_to : Option Nat
  filing_date : Option Nat
deriving DecidableEq, Repr

/-- `onSubmit` of the new-case page: insert the case row; then, only when
strict equality of `data.case_type` with the lowercase word, insert the placeholder
security interest with type `Mortgage`, the fixed description, amount 0,
`lender_id = data.client_id` and
`borrower_id = data.opposing_party_id || data.client_id`. -/
def createCaseSubmit (db : DB) (fid : Nat) (form : NewCaseForm)
    (newCaseId newSiId createdAt : Nat) : DB :=
  let newCase : CaseRow :=
    { id := newCaseId
      firm_id := fid
      case_number := form.case_number
      title := form.title
      case_type := form.case_type
      status := form.status
      client_id := form.client_id
      opposing_party_id := form.opposing_party_id
      assigned_to := form.assigned_to
      filing_date := form.filing_date
      created_at := createdAt }
  let db1 := { db with cases := db.cases ++ [newCase] }
  if form.case_type == "foreclosure" then
    { db1 with security_interests := db1.security_interests ++
        [{ id := newSiId
           firm_id := fid
           case_id := newCaseId
           type := "Mortgage"
           description := "Primary mortgage on property"
           amount := 0
           lender_id := form.client_id
           borrower_id := jsOrId form.opposing_party_id form.client_id
           lien_position := none }] }
  else db1

/-! ### Case deletion (C4) -/

/-- The first phase of `handleDeleteCase`: the four awaited child-table
deletes, each a delete keyed on `case_id`. -/
def deleteChildrenByCase (db : DB) (cid : Nat) : DB :=
  { db with
    security_interests := db.security_interests.filter (fun s => !(s.case_id == cid))
    documents := db.documents.filter (fun d => !(d.case_id == cid))
    deadlines := db.deadlines.filter (fun d => !(d.case_id == cid))
    financials := db.financials.filter (fun f => !(f.case_id == cid)) }

/-- The second phase of `handleDeleteCase`:
the delete of the case row keyed on `id`. -/
def deleteCaseRow (db : DB) (cid : Nat) : DB :=
  { db with cases := db.cases.filter (fun c => !(c.id == cid)) }

/-- `handleDeleteCase` of the case-detail page: the child deletes are
awaited before the case row delete is issued. -/
def handleDeleteCase (db : DB) (cid : Nat) : DB :=
  deleteCaseRow (deleteChildrenByCase db cid) cid

/-! ### Case-detail fetch (C10) -/

/-- `.single()` of the query builder: a row when the result set has exactly
one row, an error (mapped to `none`) otherwise. -/
def singleRow (l : List α) : Option α :=
  match l with
  | [x] => some x
  | _ => none

/-- The outcome of the case-detail load: either the redirect to `/cases`
taken by the catch branch of `fetchCaseData`, or a rendered view carrying
the case row and the four dependent child fetches. -/
inductive CaseDetailView where
  | redirectToCases : CaseDetailView
  | render (c : CaseRow) (sis : List SecurityInterestRow)
      (docs : List DocumentRow) (dls : List DeadlineRow)
      (fins : List FinancialRow) : CaseDetailView
deriving DecidableEq, Repr

/-- Model of the order-by on deadlines: due date ascending. -/
def deadlineDueAsc (a b : DeadlineRow) : Prop := a.due_date ≤ b.due_date

instance : DecidableRel deadlineDueAsc := fun _ _ => Nat.decLe _ _

/-- Model of the order-by on financials: transaction date descending. -/
def financialDateDesc (a b : FinancialRow) : Prop :=
  b.transaction_date ≤ a.transaction_date

instance : DecidableRel financialDateDesc := fun _ _ => Nat.decLe _ _

/-- `fetchCaseData` of the case-detail page: the select on `cases` keyed
on `id` with `single()`; when that lookup errors the catch branch
redirects to the cases list before any child fetch runs, otherwise the
dependent child fetches are issued (security interests only for
foreclosure-typed cases, by lowercased comparison). -/
def fetchCaseData (db : DB) (uid cid : Nat) : CaseDetailView :=
  match singleRow ((rlsVisible db uid CaseRow.firm_id db.cases).filter
      (fun c => c.id == cid)) with
  | none => .redirectToCases
  | some c =>
    .render c
      (if jsToLower c.case_type == "foreclosure" then
        querySecurityInterestsByCase db uid c.id
      else [])
      (List.insertionSort documentCreatedDesc
        ((rlsVisible db uid DocumentRow.firm_id db.documents).filter
          (fun d => d.case_id == c.id)))
      (List.insertionSort deadlineDueAsc
        ((rlsVisible db uid DeadlineRow.firm_id db.deadlines).filter
          (fun d => d.case_id == c.id)))
      (List.insertionSort financialDateDesc (queryFinancialsByCase db uid c.id))

/-! ### The scripted assistant (C9) -/

/-- The canned drafting reply of `fetchAIResponse`. -/
def draftReply : String :=
  "I have drafted the document based on your requirements. Here is the suggested text:\n\n[Document content would appear here with proper formatting and legal language based on the case details provided]"

/-- The canned analysis reply of `fetchAIResponse`. -/
def analysisReply : String :=
  "Based on my analysis of the document, here are my observations:\n\n1. The agreement contains several ambiguous clauses in sections 3.2 and 5.1 that could be clarified.\n2. The indemnification clause is more favorable to the opposing party.\n3. There are potential compliance issues with local regulations in section 7.\n\nI recommend revising these sections to strengthen your client\x27s position."

/-- The canned summary reply of `fetchAIResponse`. -/
def summaryReply : String :=
  "Summary of the document:\n\nThis is a mortgage foreclosure complaint filed against John Doe regarding the property at 123 Main St. The complaint alleges that the defendant has failed to make payments for 6 months, totaling $12,500 in arrears. The plaintiff is seeking foreclosure and sale of the property to satisfy the debt of $275,000 plus interest and costs."

/-- The canned deadlines reply of `fetchAIResponse`. -/
def deadlinesReply : String :=
  "Based on the foreclosure regulations in this jurisdiction, here are the key deadlines to be aware of:\n\n- Defendant has 21 days to file an answer to the complaint\n- If no answer is filed, you can move for default judgment after day 22\n- Redemption period is 6 months from judgment\n- Sale can be scheduled approximately 30-45 days after judgment\n- Confirmation hearing typically 30 days after sale"

/-- The clarifying default reply of `fetchAIResponse`. -/
def defaultReply : String :=
  "I\x27ve analyzed your request and the case information provided. To best assist you with this legal matter, I would need more specific details about what you\x27re looking to accomplish. Would you like me to draft a document, review existing content, provide legal analysis, or suggest strategy?"

/-- `fetchAIResponse` of the assistant page: the keyword table matched, in
order, against the lowercased prompt. -/
def fetchAIResponse (prompt : String) : String :=
  let p := jsToLower prompt
  if jsIncludes p "draft" || jsIncludes p "write" then draftReply
  else if jsIncludes p "analyze" || jsIncludes p "review" then analysisReply
  else if jsIncludes p "summarize" then summaryReply
  else if jsIncludes p "deadline" || jsIncludes p "timeline" then deadlinesReply
  else defaultReply

/-- The reply table exactly as the claim words it: `draft` alone triggers
the drafting reply, with no `write` alternative. -/
def claimAIResponse (prompt : String) : String :=
  let p := jsToLower prompt
  if jsIncludes p "draft" then draftReply
  else if jsIncludes p "analyze" || jsIncludes p "review" then analysisReply
  else if jsIncludes p "summarize" then summaryReply
  else if jsIncludes p "deadline" || jsIncludes p "timeline" then deadlinesReply
  else defaultReply

/-! ### Specification-side predicates -/

/-- The dashboard window of the spec: a deadline of the firm due in
`[now, now + 7 days]`, both bounds included. -/
def upcomingWindowSpec (fid now : Nat) (d : DeadlineRow) : Prop :=
  d.firm_id = fid ∧ now ≤ d.due_date ∧ d.due_date ≤ now + 7 * 24 * 60 * 60 * 1000

instance (fid now : Nat) (d : DeadlineRow) :
    Decidable (upcomingWindowSpec fid now d) := by
  unfold upcomingWindowSpec; infer_instance

/-! ### Sample data used to exercise the theorems on concrete inputs -/

/-- An empty store. -/
def emptyDB : DB := ⟨[], [], [], [], [], [], []⟩

/-- A sample member of firm 1. -/
def sampleUser : UserRow :=
  { id := 7, firm_id := 1, email := "a@b.c", first_name := "Ann",
    last_name := "Lee", role := "admin" }

/-- A sample case of firm `fid` with creation time `i`. -/
def mkCaseRow (fid i : Nat) : CaseRow :=
  { id := i, firm_id := fid, case_number := "FC-001", title := "Roe Foreclosure",
    case_type := "foreclosure", status := "active", client_id := 3,
    opposing_party_id := none, assigned_to := none, filing_date := none,
    created_at := i }

/-- A sample deadline of firm 1 due at time 1500. -/
def sampleDeadline : DeadlineRow :=
  { id := 1, firm_id := 1, case_id := 0, title := "Answer due",
    due_date := 1500, priority := "High", status := "Pending",
    assigned_to := none }

/-- A store holding one firm-1 member, twelve firm-1 cases, one case of a
second firm, and one deadline. -/
def sampleDB : DB :=
  { users := [sampleUser]
    parties := [{ id := 3, firm_id := 1, first_name := some "Jane",
                  last_name := some "Roe", organization_name := none,
                  is_client := true }]
    cases := (List.range 12).map (mkCaseRow 1) ++ [mkCaseRow 2 50]
    security_interests := []
    documents := []
    deadlines := [sampleDeadline]
    financials := [] }

/-- The new-case form of the spec scenario, but with the case type spelled
with a capital letter. -/
def upperCaseForm : NewCaseForm :=
  { title := "Roe Foreclosure", case_number := "FC-001",
    case_type := "Foreclosure", status := "active", description := none,
    client_id := 3, opposing_party_id := none, assigned_to := none,
    filing_date := none }

/-- The new-case form of the spec scenario. -/
def lowerCaseForm : NewCaseForm :=
  { upperCaseForm with case_type := "foreclosure" }

/-! ### Shared lemmas -/

/-- A row visible through the authorization gate carries the firm of the
resolved principal. -/
theorem firmId_of_mem_rlsVisible {α : Type} {db : DB} {uid f1 : Nat}
    {firmIdOf : α → Nat} {rows : List α}
    (h : resolveFirmId db uid = some f1) {r : α}
    (hr : r ∈ rlsVisible db uid firmIdOf rows) : firmIdOf r = f1 := by
  unfold rlsVisible at hr
  rw [h] at hr
  simp only [List.mem_filter, beq_iff_eq] at hr
  exact hr.2

/-! ### C8: pagination footer total -/

/-- C8: the pagination footer label shows `totalPages * itemsPerPage`
(with `totalPages = ceil(count / 10)`), so whenever the true count is not a
multiple of 10 the displayed total differs from the true count. -/
theorem displayed_total_results_mismatch (n : Nat) :
    displayedTotalResults n = totalPagesOf n * 10 ∧
    (n % 10 ≠ 0 → displayedTotalResults n ≠ n) := by
  refine ⟨rfl, fun h => ?_⟩
  unfold displayedTotalResults totalPagesOf
  omega

/-- Concrete instance of the footer-label mismatch at a count of 13. -/
theorem displayed_total_results_mismatch_witness :
    13 % 10 ≠ 0 ∧ displayedTotalResults 13 ≠ 13 :=
  ⟨by decide, (displayed_total_results_mismatch 13).2 (by decide)⟩

/-! ### C5: dashboard upcoming-deadlines statistic -/

/-- C5: for a principal resolving to firm `fid`, the dashboard
upcoming-deadlines statistic equals the exact number of deadline rows of
that firm whose due date lies in `[now, now + 7 days]`, lower bound
included. -/
theorem upcoming_deadlines_count_exact (db : DB) (uid now fid : Nat)
    (h : resolveFirmId db uid = some fid) :
    upcomingDeadlinesCount db uid now =
      (db.deadlines.filter (fun d => decide (upcomingWindowSpec fid now d))).length := by
  unfold upcomingDeadlinesCount queryUpcomingDeadlines rlsVisible
  rw [h]
  simp only [List.filter_filter]
  congr 1
  apply List.filter_congr
  intro d _
  rw [Bool.eq_iff_iff]
  simp only [Bool.and_eq_true, decide_eq_true_eq, beq_iff_eq, upcomingWindowSpec]
  tauto

/-- Concrete instance of the upcoming-deadlines statistic on the sample
store: one deadline falls in the seven-day window from time 1000. -/
theorem upcoming_deadlines_count_exact_witness :
    upcomingDeadlinesCount sampleDB 7 1000 =
      (sampleDB.deadlines.filter (fun d => decide (upcomingWindowSpec 1 1000 d))).length ∧
    upcomingDeadlinesCount sampleDB 7 1000 = 1 :=
  ⟨upcoming_deadlines_count_exact sampleDB 7 1000 1 (by decide), by decide⟩

/-! ### C3: party display-name resolution -/

/-- C3 counterexample: the dashboard inline variant returns the string
`null null` for a constraint-valid party whose organization name is present
but empty, and `getPartyDisplayName` returns the empty string, not the
fallback literal, when all three name fields are absent. -/
theorem display_name_cex :
    validName ⟨none, none, some ""⟩ ∧
    dashboardClientName (some ⟨none, none, some ""⟩) = "null null" ∧
    getPartyDisplayName (some ⟨none, none, none⟩) = "" ∧
    "" ≠ "Unknown" := by
  refine ⟨by decide, by decide, by decide, by decide⟩

/-- C3 amended: `getPartyDisplayName` returns the organization name when it
is truthy (present and non-empty); otherwise the trimmed concatenation of
the personal names with null parts treated as empty, which is the empty
string, not the fallback literal, when all three fields are absent; the
fallback literal `Unknown` is returned exactly when the party record itself
is missing.  Being a total function it never throws. -/
theorem display_name_amended (p : PartyName) :
    (jsTruthy p.organization_name = true →
      getPartyDisplayName (some p) = p.organization_name.getD "") ∧
    (jsTruthy p.organization_name = false →
      getPartyDisplayName (some p) =
        jsTrim ((p.first_name.getD "") ++ " " ++ (p.last_name.getD ""))) ∧
    (p.first_name = none → p.last_name = none → p.organization_name = none →
      getPartyDisplayName (some p) = "") ∧
    getPartyDisplayName none = "Unknown" := by
  refine ⟨fun h => ?_, fun h => ?_, fun h1 h2 h3 => ?_, rfl⟩
  · simp [getPartyDisplayName, h]
  · simp [getPartyDisplayName, h]
  · obtain ⟨f, l, o⟩ := p
    subst h1; subst h2; subst h3
    decide

/-- Concrete instance of display-name resolution for the party
`Jane Roe` with no organization name. -/
theorem display_name_amended_witness :
    getPartyDisplayName (some ⟨some "Jane", some "Roe", none⟩) = "Jane Roe" := by
  have h := (display_name_amended ⟨some "Jane", some "Roe", none⟩).2.1 (by decide)
  exact h.trans (by decide)

/-! ### C9: scripted assistant keyword table -/

set_option maxRecDepth 10000 in
/-- C9 counterexample: the prompt `write` contains none of the keywords of
the claim table, so the claim requires the clarifying default reply, but the
source also matches `write` and returns the drafting reply. -/
theorem assistant_reply_cex :
    fetchAIResponse "write" = draftReply ∧
    claimAIResponse "write" = defaultReply ∧
    draftReply ≠ defaultReply := by
  refine ⟨by decide, by decide, by decide⟩

/-- C9 amended: the reply is a deterministic, case-insensitive substring
match over the prompt in a fixed order, where the first clause triggers on
`draft` or `write`, then `analyze` or `review`, then `summarize`, then
`deadline` or `timeline`, and every other prompt gets the single clarifying
default reply. -/
theorem assistant_reply_amended (prompt : String) :
    ((jsIncludes (jsToLower prompt) "draft" = true ∨
        jsIncludes (jsToLower prompt) "write" = true) →
      fetchAIResponse prompt = draftReply) ∧
    (jsIncludes (jsToLower prompt) "draft" = false →
      jsIncludes (jsToLower prompt) "write" = false →
      (jsIncludes (jsToLower prompt) "analyze" = true ∨
        jsIncludes (jsToLower prompt) "review" = true) →
      fetchAIResponse prompt = analysisReply) ∧
    (jsIncludes (jsToLower prompt) "draft" = false →
      jsIncludes (jsToLower prompt) "write" = false →
      jsIncludes (jsToLower prompt) "analyze" = false →
      jsIncludes (jsToLower prompt) "review" = false →
      jsIncludes (jsToLower prompt) "summarize" = true →
      fetchAIResponse prompt = summaryReply) ∧
    (jsIncludes (jsToLower prompt) "draft" = false →
      jsIncludes (jsToLower prompt) "write" = false →
      jsIncludes (jsToLower prompt) "analyze" = false →
      jsIncludes (jsToLower prompt) "review" = false →
      jsIncludes (jsToLower prompt) "summarize" = false →
      (jsIncludes (jsToLower prompt) "deadline" = true ∨
        jsIncludes (jsToLower prompt) "timeline" = true) →
      fetchAIResponse prompt = deadlinesReply) ∧
    (jsIncludes (jsToLower prompt) "draft" = false →
      jsIncludes (jsToLower prompt) "write" = false →
      jsIncludes (jsToLower prompt) "analyze" = false →
      jsIncludes (jsToLower prompt) "review" = false →
      jsIncludes (jsToLower prompt) "summarize" = false →
      jsIncludes (jsToLower prompt) "deadline" = false →
      jsIncludes (jsToLower prompt) "timeline" = false →
      fetchAIResponse prompt = defaultReply) := by
  unfold fetchAIResponse
  refine ⟨?_, ?_, ?_, ?_, ?_⟩ <;> intros <;> simp_all

/-- Concrete instance of the keyword table on three prompts. -/
theorem assistant_reply_amended_witness :
    fetchAIResponse "Please DRAFT a letter" = draftReply ∧
    fetchAIResponse "review this contract" = analysisReply ∧
    fetchAIResponse "hello there" = defaultReply := by
  refine ⟨(assistant_reply_amended "Please DRAFT a letter").1 (Or.inl (by decide)),
    (assistant_reply_amended "review this contract").2.1 (by decide) (by decide)
      (Or.inr (by decide)),
    (assistant_reply_amended "hello there").2.2.2.2 (by decide) (by decide)
      (by decide) (by decide) (by decide) (by decide) (by decide)⟩

/-! ### C2: foreclosure placeholder security interest -/

/-- C2 counterexample: `Foreclosure` is a letter-casing variant of
`foreclosure`, yet creating a case with that case type inserts no security
interest, because the trigger is the strict comparison
`data.case_type === \x27foreclosure\x27`. -/
theorem foreclosure_placeholder_cex :
    jsToLower "Foreclosure" = "foreclosure" ∧
    (createCaseSubmit emptyDB 1 upperCaseForm 100 101 0).security_interests.filter
      (fun s => s.case_id == 100) = [] := by
  refine ⟨by decide, by decide⟩

/-- C2 amended: case creation inserts the placeholder security interest
exactly when the submitted case type is the exact lowercase string
`foreclosure`; the inserted row is unique for the new case and carries
amount 0, the fixed description, `lender_id` equal to the client, and
`borrower_id` equal to the opposing party when present, else the client;
for any other case type, including other casings of `foreclosure`, no
security interest is created. -/
theorem foreclosure_placeholder_amended (db : DB) (fid : Nat)
    (form : NewCaseForm) (newCaseId newSiId createdAt : Nat)
    (hfresh : ∀ s ∈ db.security_interests, s.case_id ≠ newCaseId) :
    (form.case_type = "foreclosure" →
      (createCaseSubmit db fid form newCaseId newSiId createdAt).security_interests.filter
        (fun s => s.case_id == newCaseId) =
        [{ id := newSiId, firm_id := fid, case_id := newCaseId,
           type := "Mortgage", description := "Primary mortgage on property",
           amount := 0, lender_id := form.client_id,
           borrower_id := jsOrId form.opposing_party_id form.client_id,
           lien_position := none }]) ∧
    (form.case_type ≠ "foreclosure" →
      (createCaseSubmit db fid form newCaseId newSiId createdAt).security_interests.filter
        (fun s => s.case_id == newCaseId) = []) := by
  have hnil : db.security_interests.filter (fun s => s.case_id == newCaseId) = [] := by
    apply List.filter_eq_nil_iff.mpr
    intro s hs
    simp only [beq_iff_eq]
    exact hfresh s hs
  constructor
  · intro h
    unfold createCaseSubmit
    simp only [h, beq_self_eq_true, if_true]
    rw [List.filter_append, hnil]
    simp
  · intro h
    have hb : (form.case_type == "foreclosure") = false := beq_eq_false_iff_ne.mpr h
    unfold createCaseSubmit
    simp only [hb, Bool.false_eq_true, ite_false]
    exact hnil

/-- Concrete instance of the amended trigger: the spec scenario with the
lowercase case type yields exactly one placeholder row, lender `Jane.id`. -/
theorem foreclosure_placeholder_amended_witness :
    (createCaseSubmit emptyDB 1 lowerCaseForm 100 101 0).security_interests.filter
      (fun s => s.case_id == 100) =
      [{ id := 101, firm_id := 1, case_id := 100, type := "Mortgage",
         description := "Primary mortgage on property", amount := 0,
         lender_id := 3, borrower_id := 3, lien_position := none }] :=
  (foreclosure_placeholder_amended emptyDB 1 lowerCaseForm 100 101 0
    (by intro s hs; simp [emptyDB] at hs)).1 (by decide)

/-! ### C4: case deletion cascade -/

/-- C4: after `handleDeleteCase`, the four child tables hold no row for the
deleted case, the case row itself is absent, and the deletion factors as
the four child deletes (which leave the cases table untouched) followed by
the case-row delete. -/
theorem case_deletion_cascade (db : DB) (cid : Nat) :
    (handleDeleteCase db cid).security_interests.filter (fun s => s.case_id == cid) = [] ∧
    (handleDeleteCase db cid).documents.filter (fun d => d.case_id == cid) = [] ∧
    (handleDeleteCase db cid).deadlines.filter (fun d => d.case_id == cid) = [] ∧
    (handleDeleteCase db cid).financials.filter (fun f => f.case_id == cid) = [] ∧
    (handleDeleteCase db cid).cases.filter (fun c => c.id == cid) = [] ∧
    (deleteChildrenByCase db cid).cases = db.cases ∧
    handleDeleteCase db cid = deleteCaseRow (deleteChildrenByCase db cid) cid := by
  refine ⟨?_, ?_, ?_, ?_, ?_, rfl, rfl⟩ <;>
  · unfold handleDeleteCase deleteCaseRow deleteChildrenByCase
    simp only [List.filter_filter]
    apply List.filter_eq_nil_iff.mpr
    intro a _
    simp

/-! ### C1: tenant isolation -/

/-- C1: for distinct firms `f1 ≠ f2`, every firm-scoped query issued by a
principal whose user record resolves to `f1` — the cases, parties and
documents list queries, the dashboard deadline-range query, and the
case-scoped financial and security-interest queries — contains no row of
firm `f2`. -/
theorem tenant_isolation (db : DB) (uid f1 f2 : Nat)
    (hresolve : resolveFirmId db uid = some f1) (hne : f1 ≠ f2)
    (isClient : Bool) (now cid : Nat) :
    (∀ c ∈ queryCasesByFirm db uid f1, c.firm_id ≠ f2) ∧
    (∀ p ∈ queryPartiesByFirm db uid f1 isClient, p.firm_id ≠ f2) ∧
    (∀ d ∈ queryDocumentsByFirm db uid f1, d.firm_id ≠ f2) ∧
    (∀ d ∈ queryUpcomingDeadlines db uid f1 now, d.firm_id ≠ f2) ∧
    (∀ f ∈ queryFinancialsByCase db uid cid, f.firm_id ≠ f2) ∧
    (∀ s ∈ querySecurityInterestsByCase db uid cid, s.firm_id ≠ f2) := by
  refine ⟨fun c hc => ?_, fun p hp => ?_, fun d hd => ?_, fun d hd => ?_,
    fun f hf => ?_, fun s hs => ?_⟩
  · have := firmId_of_mem_rlsVisible hresolve
      (List.mem_of_mem_filter (l := rlsVisible db uid CaseRow.firm_id db.cases) hc)
    omega
  · have := firmId_of_mem_rlsVisible hresolve
      (List.mem_of_mem_filter (List.mem_of_mem_filter hp))
    omega
  · have := firmId_of_mem_rlsVisible hresolve (List.mem_of_mem_filter hd)
    omega
  · have := firmId_of_mem_rlsVisible hresolve
      (List.mem_of_mem_filter (List.mem_of_mem_filter (List.mem_of_mem_filter hd)))
    omega
  · have := firmId_of_mem_rlsVisible hresolve (List.mem_of_mem_filter hf)
    omega
  · have := firmId_of_mem_rlsVisible hresolve (List.mem_of_mem_filter hs)
    omega

/-- Concrete instance of tenant isolation on the sample store: the firm-1
member sees twelve case rows and none of firm 2. -/
theorem tenant_isolation_witness :
    resolveFirmId sampleDB 7 = some 1 ∧ (1 : Nat) ≠ 2 ∧
    (∀ c ∈ queryCasesByFirm sampleDB 7 1, c.firm_id ≠ 2) ∧
    (queryCasesByFirm sampleDB 7 1).length = 12 :=
  ⟨by decide, by decide,
    (tenant_isolation sampleDB 7 1 2 (by decide) (by decide) true 0 0).1,
    by decide⟩

/-! ### C10: case-detail not-found redirect -/

/-- C10: when the case-detail lookup finds no visible row — the id does not
exist or the case belongs to a firm other than the resolved one — the view
redirects to the cases list; the redirect outcome carries no data from any
of the dependent child fetches. -/
theorem case_detail_not_found_redirects (db : DB) (uid cid f1 : Nat)
    (hresolve : resolveFirmId db uid = some f1)
    (hnone : ∀ c ∈ db.cases, c.id = cid → c.firm_id ≠ f1) :
    fetchCaseData db uid cid = CaseDetailView.redirectToCases := by
  unfold fetchCaseData rlsVisible
  rw [hresolve]
  have hnil : (db.cases.filter (fun c => c.firm_id == f1)).filter
      (fun c => c.id == cid) = [] := by
    simp only [List.filter_filter]
    apply List.filter_eq_nil_iff.mpr
    intro c hc
    simp only [Bool.and_eq_true, beq_iff_eq, not_and]
    intro hid hfirm
    exact hnone c hc hid hfirm
  rw [hnil]
  rfl

/-- Concrete instance of the not-found redirect: case 50 belongs to firm 2,
so the firm-1 member is redirected. -/
theorem case_detail_not_found_redirects_witness :
    fetchCaseData sampleDB 7 50 = CaseDetailView.redirectToCases :=
  case_detail_not_found_redirects sampleDB 7 50 1 (by decide) (by decide)

/-! ### C6: case-list pagination -/

/-- C6: with page size 10 and 1-indexed pages, any page past
`ceil(N / 10)` returns the empty row set, and page 1 returns exactly ten
rows when at least ten rows match, ordered by creation time descending. -/
theorem cases_list_pagination (db : DB) (uid fid : Nat) (s st ty : String) :
    (∀ page : Nat,
      totalPagesOf (fetchCasesCount db uid fid s st ty) + 1 ≤ page →
      fetchCasesPage db uid fid s st ty page = []) ∧
    (10 ≤ fetchCasesCount db uid fid s st ty →
      (fetchCasesPage db uid fid s st ty 1).length = 10) ∧
    List.Sorted caseCreatedDesc (fetchCasesPage db uid fid s st ty 1) := by
  have hlen : (fetchCasesSorted db uid fid s st ty).length =
      fetchCasesCount db uid fid s st ty :=
    (List.perm_insertionSort caseCreatedDesc
      (fetchCasesMatching db uid fid s st ty)).length_eq
  refine ⟨fun page hp => ?_, fun hN => ?_, ?_⟩
  · unfold fetchCasesPage queryRange
    have h2 : fetchCasesCount db uid fid s st ty ≤
        totalPagesOf (fetchCasesCount db uid fid s st ty) * 10 := by
      unfold totalPagesOf; omega
    have h1 : totalPagesOf (fetchCasesCount db uid fid s st ty) * 10 ≤
        (page - 1) * 10 := Nat.mul_le_mul_right 10 (by omega)
    rw [List.drop_eq_nil_of_le (by omega), List.take_nil]
  · unfold fetchCasesPage queryRange
    rw [List.length_take, List.length_drop]
    omega
  · unfold fetchCasesPage queryRange
    exact List.Pairwise.sublist
      ((List.take_sublist _ _).trans (List.drop_sublist _ _))
      (List.sorted_insertionSort caseCreatedDesc
        (fetchCasesMatching db uid fid s st ty))

/-- Concrete instance of case-list pagination on the sample store: twelve
rows match the empty filter, page 3 is empty and page 1 has ten rows. -/
theorem cases_list_pagination_witness :
    fetchCasesCount sampleDB 7 1 "" "all" "all" = 12 ∧
    fetchCasesPage sampleDB 7 1 "" "all" "all" 3 = [] ∧
    (fetchCasesPage sampleDB 7 1 "" "all" "all" 1).length = 10 :=
  ⟨by decide,
    (cases_list_pagination sampleDB 7 1 "" "all" "all").1 3 (by decide),
    (cases_list_pagination sampleDB 7 1 "" "all" "all").2.1 (by decide)⟩

/-! ### C7: count and page computed under the same filter -/

/-- C7: in both filtered list views the exact count is the size of the
ordered result set of the same filter predicate, the returned page is a
sublist of that result set, and every row of any returned page satisfies
the same search, categorical and firm-scope predicate used for the
count. -/
theorem count_page_filter_consistency (db : DB) (uid fid : Nat)
    (s st ty : String) (caseFilter : Option Nat) (page : Nat) :
    (fetchCasesCount db uid fid s st ty =
        (fetchCasesSorted db uid fid s st ty).length ∧
      List.Sublist (fetchCasesPage db uid fid s st ty page)
        (fetchCasesSorted db uid fid s st ty) ∧
      ∀ c ∈ fetchCasesPage db uid fid s st ty page,
        caseMatches s st ty c = true ∧ c.firm_id = fid) ∧
    (fetchDocumentsCount db uid fid s ty caseFilter =
        (fetchDocumentsSorted db uid fid s ty caseFilter).length ∧
      List.Sublist (fetchDocumentsPage db uid fid s ty caseFilter page)
        (fetchDocumentsSorted db uid fid s ty caseFilter) ∧
      ∀ d ∈ fetchDocumentsPage db uid fid s ty caseFilter page,
        documentMatches s ty caseFilter d = true ∧ d.firm_id = fid) := by
  have hsubC : List.Sublist (fetchCasesPage db uid fid s st ty page)
      (fetchCasesSorted db uid fid s st ty) :=
    (List.take_sublist _ _).trans (List.drop_sublist _ _)
  have hsubD : List.Sublist (fetchDocumentsPage db uid fid s ty caseFilter page)
      (fetchDocumentsSorted db uid fid s ty caseFilter) :=
    (List.take_sublist _ _).trans (List.drop_sublist _ _)
  refine ⟨⟨?_, hsubC, fun c hc => ?_⟩, ⟨?_, hsubD, fun d hd => ?_⟩⟩
  · exact ((List.perm_insertionSort caseCreatedDesc
      (fetchCasesMatching db uid fid s st ty)).length_eq).symm
  · have hmem : c ∈ fetchCasesMatching db uid fid s st ty :=
      (List.perm_insertionSort caseCreatedDesc
        (fetchCasesMatching db uid fid s st ty)).mem_iff.mp
        (hsubC.subset hc)
    unfold fetchCasesMatching queryCasesByFirm at hmem
    simp only [List.mem_filter, beq_iff_eq] at hmem
    exact ⟨hmem.2, hmem.1.2⟩
  · exact ((List.perm_insertionSort documentCreatedDesc
      (fetchDocumentsMatching db uid fid s ty caseFilter)).length_eq).symm
  · have hmem : d ∈ fetchDocumentsMatching db uid fid s ty caseFilter :=
      (List.perm_insertionSort documentCreatedDesc
        (fetchDocumentsMatching db uid fid s ty caseFilter)).mem_iff.mp
        (hsubD.subset hd)
    unfold fetchDocumentsMatching queryDocumentsByFirm at hmem
    simp only [List.mem_filter, beq_iff_eq] at hmem
    exact ⟨hmem.2, hmem.1.2⟩

/-- Concrete instance of count-page consistency: the newest sample case
sits on page 1 and satisfies the filter counted. -/
theorem count_page_filter_consistency_witness :
    caseMatches "" "all" "all" (mkCaseRow 1 11) = true ∧
    (mkCaseRow 1 11).firm_id = 1 :=
  (count_page_filter_consistency sampleDB 7 1 "" "all" "all" none 1).1.2.2
    (mkCaseRow 1 11) (by decide)

end LegalBeacon
